import Mathlib

/-!
Verification development for the geomimi RAG question-answering pipeline.

The definitions below are a shallow embedding of the Python sources:
`rag_workflow.py`, `app.py`, `evaluation/ragas_evaluator.py`,
`evaluation/giskard_evaluator.py` and `evaluation/bhc_dataset.py`.
Python floats are modelled by `ℚ` (exact arithmetic subsumes the
floating-point tolerances the specification allows), machine strings by
`String`, fallible language-model calls by `Except String`-valued
functions supplied as parameters, and wall-clock timing fields are
elided (they are not the subject of any property proved here).
-/

set_option autoImplicit false

/-! ### Data model of the workflow (`state.py`, `rag_workflow.py`)

`Document` is the unit handed around by the graph nodes; the grading
node only ever reads its `page_content` field. `GradeResponse` is the
structured output of the external `evaluate_docs` relevance chain;
the workflow reads its `score` field and compares it, lower-cased,
against `"yes"`. -/

structure Document where
  page_content : String
deriving DecidableEq, Repr

structure GradeResponse where
  score : String
  reasoning : String
deriving DecidableEq, Repr

/-- Output record of the `Grade Documents` node (`RAGWorkflow._evaluate`). -/
structure EvalOut where
  documents : List Document
  question : String
  online_search : Bool
  search_method : String
  document_evaluations : List GradeResponse
deriving DecidableEq, Repr

/-- Python `str.lower()` as used on judge scores (`result.lower()`,
rag_workflow.py line 62): per-character lowering (`Char.toLower` models the
ASCII case mapping; the scores compared are the ASCII words `yes`/`no`). -/
def py_lower (s : String) : String := ⟨s.data.map Char.toLower⟩

/-- One iteration of the `for document in documents` loop of
`RAGWorkflow._evaluate` (rag_workflow.py lines 57-65): invoke the
grading chain, append the response, keep the document when the
lower-cased score is `"yes"`, otherwise switch `online_search` on.
The accumulator is `(filtered_docs, document_evaluations, online_search)`. -/
def grade_step (evaluate_docs : String → String → GradeResponse) (question : String)
    (acc : List Document × List GradeResponse × Bool) (document : Document) :
    List Document × List GradeResponse × Bool :=
  let response := evaluate_docs question document.page_content
  let document_evaluations := acc.2.1 ++ [response]
  if py_lower response.score == "yes" then
    (acc.1 ++ [document], document_evaluations, acc.2.2)
  else
    (acc.1, document_evaluations, true)

/-- Shallow embedding of `RAGWorkflow._evaluate` (rag_workflow.py lines
46-77). The external grading chain `evaluate_docs` is a parameter; the
incoming `online_search` flag is `state.get("online_search", False)`. -/
def evaluate_node (evaluate_docs : String → String → GradeResponse) (question : String)
    (documents : List Document) (online_search0 : Bool) : EvalOut :=
  let r := documents.foldl (grade_step evaluate_docs question) ([], [], online_search0)
  { documents := r.1
    question := question
    online_search := r.2.2
    search_method := if r.2.2 then "online" else "documents"
    document_evaluations := r.2.1 }

/-- Whether the grading chain marks a document relevant (`score.lower() == "yes"`). -/
def graded_yes (evaluate_docs : String → String → GradeResponse) (question : String)
    (document : Document) : Bool :=
  py_lower (evaluate_docs question document.page_content).score == "yes"

theorem grade_foldl_spec (g : String → String → GradeResponse) (q : String) :
    ∀ (ds : List Document) (fd : List Document) (evs : List GradeResponse) (os : Bool),
      ds.foldl (grade_step g q) (fd, evs, os) =
        (fd ++ ds.filter (graded_yes g q),
         evs ++ ds.map (fun d => g q d.page_content),
         os || ds.any (fun d => !(graded_yes g q d))) := by
  intro ds
  induction ds with
  | nil => intro fd evs os; simp
  | cons d ds ih =>
    intro fd evs os
    simp only [List.foldl_cons, grade_step]
    split
    next hyes =>
      rw [ih]
      have hd : graded_yes g q d = true := hyes
      simp [List.filter_cons, hd, List.append_assoc]
    next hno =>
      rw [ih]
      have hd : graded_yes g q d = false := by
        simpa [graded_yes, Bool.not_eq_true] using hno
      simp [List.filter_cons, hd, List.append_assoc]

theorem evaluate_node_documents (g : String → String → GradeResponse) (q : String)
    (documents : List Document) (os0 : Bool) :
    (evaluate_node g q documents os0).documents = documents.filter (graded_yes g q) := by
  simp [evaluate_node, grade_foldl_spec]

theorem evaluate_node_evals (g : String → String → GradeResponse) (q : String)
    (documents : List Document) (os0 : Bool) :
    (evaluate_node g q documents os0).document_evaluations =
      documents.map (fun d => g q d.page_content) := by
  simp [evaluate_node, grade_foldl_spec]

theorem evaluate_node_online (g : String → String → GradeResponse) (q : String)
    (documents : List Document) (os0 : Bool) :
    (evaluate_node g q documents os0).online_search =
      (os0 || documents.any (fun d => !(graded_yes g q d))) := by
  simp [evaluate_node, grade_foldl_spec]

theorem evaluate_node_method (g : String → String → GradeResponse) (q : String)
    (documents : List Document) (os0 : Bool) :
    (evaluate_node g q documents os0).search_method =
      (if (evaluate_node g q documents os0).online_search then "online" else "documents") := by
  simp [evaluate_node]

theorem evaluate_node_question (g : String → String → GradeResponse) (q : String)
    (documents : List Document) (os0 : Bool) :
    (evaluate_node g q documents os0).question = q := rfl

/-! ### Answer generation (`RAGWorkflow._generate_answer`, lines 106-146) -/

/-- Shallow embedding of `RAGWorkflow._generate_fallback_response`
(rag_workflow.py lines 135-146): the canned templated answer used when no
relevant document survived grading. The Python f-string interpolates the
question between the two literal halves. -/
def fallback_head : String :=
  "Desculpe, mas não consegui encontrar informações relevantes nos documentos carregados para responder à sua pergunta: \""

def fallback_tail : String :=
  "\".\n\nOs documentos disponíveis parecem não conter informações relacionadas ao que você está perguntando. Para obter uma resposta adequada, seria necessário:\n\n1. Carregar documentos que contenham informações relacionadas à sua pergunta\n2. Fazer uma pergunta mais específica sobre o conteúdo dos documentos carregados\n3. Verificar se sua pergunta está relacionada ao contexto dos documentos disponíveis\n\nVocê poderia reformular sua pergunta de forma mais específica sobre o conteúdo dos documentos, ou carregar documentos relevantes para sua consulta?"

def fallback_response (question : String) : String :=
  fallback_head ++ question ++ fallback_tail

/-- Output record of the `Generate Answer` node. `no_documents_available` is
present (and `True`) only in the empty-documents branch of the Python dict;
the non-empty branch omits the key, modelled as `false`. -/
structure GenOut where
  documents : List Document
  question : String
  solution : String
  retry_count : Nat
  no_documents_available : Bool
deriving DecidableEq, Repr

/-- Shallow embedding of `RAGWorkflow._generate_answer` (rag_workflow.py lines
106-133). The external `generate_chain.invoke` is the parameter
`generate_chain`; the second component of the result counts how many times it
was invoked, so that the absence of a model call is expressible. -/
def generate_answer (generate_chain : List Document → String → String)
    (question : String) (documents : List Document) (retry_count : Nat) :
    GenOut × Nat :=
  if documents.length = 0 then
    ({ documents := documents
       question := question
       solution := fallback_response question
       retry_count := retry_count + 1
       no_documents_available := true }, 0)
  else
    ({ documents := documents
       question := question
       solution := generate_chain documents question
       retry_count := retry_count + 1
       no_documents_available := false }, 1)

/-! ### Hallucination-check retry loop

`rag_workflow.py` wires the graph edge `Generate Answer → Generate Answer`
through `self._check_hallucinations` (line 34), but neither
`_check_hallucinations` nor the public `process_question` entry point called
from `app.py` is present in the sources; only this caller and the graph wiring
are. The loop below is therefore modelled from the spec. -/

/-- Verdicts of the hallucination-check judge (spec §4.4). -/
inductive HallucinationVerdict where
  | hallucination_detected
  | answers_question
  | question_not_addressed
deriving DecidableEq, Repr

/-- Modelled from the spec: the retry ceiling, "a fixed ceiling (design
constant, e.g. 3)" — the missing `_check_hallucinations`/`process_question`
code holds this constant. -/
def retry_ceiling : Nat := 3

/-- Terminal workflow state surfaced to the caller (spec §4.4 and §7:
`HallucinationLoopExhaustion` is "a normal terminal state with
`retry_limit_reached = true`"). -/
structure WorkflowTerminal where
  solution : String
  retry_count : Nat
  retry_limit_reached : Bool
deriving DecidableEq, Repr

/-- Modelled from the spec: the `Generating` state of §4.4 with its
hallucination check, as an explicit bounded loop (the reframing §9 itself
prescribes for the missing recursive graph edge). One pass generates an
answer (`generate` is the generation step, a function of the current retry
count so that regenerated answers may differ), increments `retry_count` —
matching `_generate_answer`, which returns `retry_count + 1` — and asks the
judge; `Hallucination Detected` loops while regeneration budget remains,
and on ceiling breach the last-generated answer is surfaced with
`retry_limit_reached = true`. Entering with `budget = retry_ceiling` makes
the budget hit `0` exactly when `retry_count` exceeds the ceiling. -/
def generating_state (generate : Nat → String) (check : String → HallucinationVerdict) :
    Nat → Nat → WorkflowTerminal
  | budget, retry_count =>
    let solution := generate retry_count
    match check solution with
    | .answers_question => ⟨solution, retry_count + 1, false⟩
    | .question_not_addressed => ⟨solution, retry_count + 1, false⟩
    | .hallucination_detected =>
      match budget with
      | 0 => ⟨solution, retry_count + 1, true⟩
      | b + 1 => generating_state generate check b (retry_count + 1)

/-- Modelled from the spec: the generation/hallucination-check phase of one
question's processing, entered with `retry_count = 0` and the full
regeneration budget. -/
def run_generating_phase (generate : Nat → String)
    (check : String → HallucinationVerdict) : WorkflowTerminal :=
  generating_state generate check retry_ceiling 0

theorem generating_state_retry_le (generate : Nat → String)
    (check : String → HallucinationVerdict) :
    ∀ (budget retry_count : Nat),
      (generating_state generate check budget retry_count).retry_count ≤
        retry_count + budget + 1 := by
  intro budget
  induction budget with
  | zero =>
    intro rc
    unfold generating_state
    cases h : check (generate rc) <;> simp [h]
  | succ b ih =>
    intro rc
    unfold generating_state
    cases h : check (generate rc)
    · have := ih (rc + 1)
      simp only [h]
      omega
    · simp [h]
    · simp [h]

/-! ### Question validation gate (`app.py`, `handle_user_interaction`) -/

/-- Python `str.strip()` on the question: drop leading whitespace, then
trailing whitespace (app.py line 126 `question.strip()`). Whitespace is
modelled by `Char.isWhitespace`. -/
def py_strip (s : String) : String :=
  ⟨((s.data.dropWhile Char.isWhitespace).reverse.dropWhile Char.isWhitespace).reverse⟩

/-- The three observable outcomes of `handle_user_interaction` (app.py lines
123-129): process the question (which reaches `process_question`, hence the
retriever and the grading judge), surface the validation warning, or do
nothing (button not pressed). -/
inductive UserInteraction where
  | process (question : String)
  | warn
  | idle
deriving DecidableEq, Repr

/-- Shallow embedding of `handle_user_interaction` (app.py lines 123-129):
`if ask_button and question.strip(): ... elif ask_button and not
question.strip(): st.warning(...)`. Python string truthiness is
non-emptiness of the stripped question. -/
def handle_user_interaction (ask_button : Bool) (question : String) : UserInteraction :=
  if ask_button && !(py_strip question == "") then .process question
  else if ask_button && (py_strip question == "") then .warn
  else .idle

/-- Modelled from the spec: `process_question` (absent from the sources; only
its call site app.py line 22 is present) performs the retrieval call —
spec §4.4 `Retrieving` "fetches top-k passages" — so the retriever is invoked
exactly on the `process` outcome. -/
def makes_retrieval_call : UserInteraction → Bool
  | .process _ => true
  | _ => false

/-- Modelled from the spec: judge calls (document grading, hallucination
check) happen only inside `process_question`, downstream of retrieval
(spec §4.4), so a judge is invoked only on the `process` outcome. -/
def makes_judge_call : UserInteraction → Bool
  | .process _ => true
  | _ => false

/-! ### Claims about the workflow -/

/-- C10: the grading step returns a state whose passage list is a
subsequence of the input passage list — exactly the passages graded
`"yes"` (case-insensitively), in their original relative order — whose
`document_evaluations` has exactly one grade result per input passage in
input order, and whose question is unchanged. -/
theorem grading_preserves_subsequence (g : String → String → GradeResponse)
    (q : String) (documents : List Document) (os0 : Bool) :
    (evaluate_node g q documents os0).documents = documents.filter (graded_yes g q) ∧
    (evaluate_node g q documents os0).documents.Sublist documents ∧
    (evaluate_node g q documents os0).document_evaluations =
      documents.map (fun d => g q d.page_content) ∧
    (evaluate_node g q documents os0).document_evaluations.length = documents.length ∧
    (evaluate_node g q documents os0).question = q := by
  refine ⟨evaluate_node_documents g q documents os0, ?_,
    evaluate_node_evals g q documents os0, ?_, rfl⟩
  · rw [evaluate_node_documents]
    exact List.filter_sublist documents
  · rw [evaluate_node_evals]
    simp

/-- C4: if any passage is graded irrelevant the grading step sets
`online_search := true` and `search_method := "online"`; if every passage
is graded relevant, `online_search` keeps its incoming value and
`search_method` is `"documents"` when that value is `false`; and when all
passages are graded irrelevant the passage list handed to generation is
empty, so generation produces the fallback message. -/
theorem grading_sets_online_flag (g : String → String → GradeResponse)
    (q : String) (documents : List Document) (os0 : Bool)
    (gen : List Document → String → String) (rc : Nat) :
    ((∃ d ∈ documents, graded_yes g q d = false) →
        (evaluate_node g q documents os0).online_search = true ∧
        (evaluate_node g q documents os0).search_method = "online") ∧
    ((∀ d ∈ documents, graded_yes g q d = true) →
        (evaluate_node g q documents os0).online_search = os0 ∧
        (os0 = false → (evaluate_node g q documents os0).search_method = "documents")) ∧
    ((∀ d ∈ documents, graded_yes g q d = false) →
        (evaluate_node g q documents os0).documents = [] ∧
        (generate_answer gen q (evaluate_node g q documents os0).documents rc).1.solution =
          fallback_response q) := by
  refine ⟨?_, ?_, ?_⟩
  · rintro ⟨d, hd, hno⟩
    have hany : documents.any (fun d => !(graded_yes g q d)) = true := by
      rw [List.any_eq_true]
      exact ⟨d, hd, by simp [hno]⟩
    have honl : (evaluate_node g q documents os0).online_search = true := by
      rw [evaluate_node_online, hany, Bool.or_true]
    refine ⟨honl, ?_⟩
    rw [evaluate_node_method, honl]
    rfl
  · intro hall
    have hany : documents.any (fun d => !(graded_yes g q d)) = false := by
      rw [List.any_eq_false]
      intro d hd
      simp [hall d hd]
    have honl : (evaluate_node g q documents os0).online_search = os0 := by
      rw [evaluate_node_online, hany, Bool.or_false]
    refine ⟨honl, ?_⟩
    intro hos
    rw [evaluate_node_method, honl, hos]
    rfl
  · intro hnone
    have hdocs : (evaluate_node g q documents os0).documents = [] := by
      rw [evaluate_node_documents]
      exact List.filter_eq_nil_iff.mpr (fun d hd => by simp [hnone d hd])
    refine ⟨hdocs, ?_⟩
    rw [hdocs]
    simp [generate_answer]

/-- C4 witness: a single document graded `"no"` by a stub grader sets the
online flag, empties the passage list, and generation falls back. -/
theorem grading_sets_online_flag_witness :
    (evaluate_node (fun _ _ => ⟨"no", "r"⟩) "q" [⟨"d1"⟩] false).online_search = true ∧
    (evaluate_node (fun _ _ => ⟨"no", "r"⟩) "q" [⟨"d1"⟩] false).search_method = "online" ∧
    (evaluate_node (fun _ _ => ⟨"no", "r"⟩) "q" [⟨"d1"⟩] false).documents = [] ∧
    (generate_answer (fun _ _ => "ans") "q"
      (evaluate_node (fun _ _ => ⟨"no", "r"⟩) "q" [⟨"d1"⟩] false).documents 0).1.solution =
      fallback_response "q" := by
  have h := grading_sets_online_flag (fun _ _ => ⟨"no", "r"⟩) "q" [⟨"d1"⟩] false
    (fun _ _ => "ans") 0
  have hno : graded_yes (fun _ _ => ⟨"no", "r"⟩) "q" ⟨"d1"⟩ = false := by decide
  obtain ⟨h1, -, h3⟩ := h
  have ha := h1 ⟨⟨"d1"⟩, by simp, hno⟩
  have hc := h3 (by intro d hd; simp at hd; rw [hd]; exact hno)
  exact ⟨ha.1, ha.2, hc.1, hc.2⟩

/-- C3: answer generation returns the canned fallback exactly on the empty
passage list — deterministically (the result is a fixed record independent
of the generation chain), with zero model calls, and with the question
echoed verbatim inside the text; on every non-empty passage list it makes
one model call and returns the chain's answer, which differs from the
canned fallback whenever the chain's output does. -/
theorem generate_fallback_exactly_on_empty (gen : List Document → String → String)
    (q : String) (rc : Nat) :
    (generate_answer gen q [] rc =
      ({ documents := [], question := q, solution := fallback_response q,
         retry_count := rc + 1, no_documents_available := true }, 0)) ∧
    (∃ a b, fallback_response q = a ++ q ++ b) ∧
    (∀ documents, documents ≠ [] →
      (generate_answer gen q documents rc).2 = 1 ∧
      (generate_answer gen q documents rc).1.solution = gen documents q ∧
      (gen documents q ≠ fallback_response q →
        (generate_answer gen q documents rc).1.solution ≠ fallback_response q)) := by
  refine ⟨by simp [generate_answer], ⟨fallback_head, fallback_tail, rfl⟩, ?_⟩
  intro documents hne
  have hlen : ¬documents.length = 0 := by simpa [List.length_eq_zero] using hne
  refine ⟨by simp [generate_answer, hlen], by simp [generate_answer, hlen], ?_⟩
  intro hgen
  simpa [generate_answer, hlen] using hgen

/-- C3 witness: instantiation with a one-document list and a stub chain. -/
theorem generate_fallback_exactly_on_empty_witness :
    (generate_answer (fun _ _ => "resposta") "qual" [] 0 =
      ({ documents := [], question := "qual", solution := fallback_response "qual",
         retry_count := 1, no_documents_available := true }, 0)) ∧
    (∃ a b, fallback_response "qual" = a ++ "qual" ++ b) ∧
    (generate_answer (fun _ _ => "resposta") "qual" [⟨"d"⟩] 0).2 = 1 ∧
    (generate_answer (fun _ _ => "resposta") "qual" [⟨"d"⟩] 0).1.solution = "resposta" ∧
    (generate_answer (fun _ _ => "resposta") "qual" [⟨"d"⟩] 0).1.solution ≠
      fallback_response "qual" := by
  have h := generate_fallback_exactly_on_empty (fun _ _ => "resposta") "qual" 0
  obtain ⟨h1, h2, h3⟩ := h
  have hd := h3 [⟨"d"⟩] (by simp)
  exact ⟨h1, h2, hd.1, hd.2.1, hd.2.2 (by decide)⟩

/-- C1: with a judge that always answers `Hallucination Detected`, the
generation phase terminates (it is a total function, defined by structural
recursion on the remaining budget) in the state with
`retry_count = retry_ceiling + 1` and `retry_limit_reached = true`; and for
every judge the terminal `retry_count` is at most `retry_ceiling + 1`. -/
theorem retry_loop_terminates_at_ceiling :
    (∀ generate : Nat → String,
      (run_generating_phase generate
          (fun _ => .hallucination_detected)).retry_count = retry_ceiling + 1 ∧
      (run_generating_phase generate
          (fun _ => .hallucination_detected)).retry_limit_reached = true) ∧
    (∀ (generate : Nat → String) (check : String → HallucinationVerdict),
      (run_generating_phase generate check).retry_count ≤ retry_ceiling + 1) := by
  constructor
  · intro generate
    exact ⟨rfl, rfl⟩
  · intro generate check
    have h := generating_state_retry_le generate check retry_ceiling 0
    simp only [run_generating_phase, retry_ceiling] at h ⊢
    omega

/-! ### Claim about the validation gate -/

theorem py_strip_of_whitespace (s : String) (h : ∀ c ∈ s.data, c.isWhitespace) :
    py_strip s = "" := by
  unfold py_strip
  have h1 : s.data.dropWhile Char.isWhitespace = [] := by
    rw [List.dropWhile_eq_nil_iff]
    exact h
  rw [h1]
  rfl

/-- C2: for every empty or whitespace-only question, the interaction handler
never reaches the processing path: the retriever is called zero times, no
judge call is made, and when the button was pressed the validation warning
is surfaced instead. -/
theorem empty_question_short_circuits (ask_button : Bool) (question : String)
    (h : ∀ c ∈ question.data, c.isWhitespace) :
    (∀ q, handle_user_interaction ask_button question ≠ .process q) ∧
    makes_retrieval_call (handle_user_interaction ask_button question) = false ∧
    makes_judge_call (handle_user_interaction ask_button question) = false ∧
    (ask_button = true → handle_user_interaction ask_button question = .warn) := by
  have hs : py_strip question = "" := py_strip_of_whitespace question h
  cases ask_button <;>
    simp [handle_user_interaction, hs, makes_retrieval_call, makes_judge_call]

/-- C2 witness: the two-space question with the button pressed. -/
theorem empty_question_short_circuits_witness :
    (∀ q, handle_user_interaction true "  " ≠ .process q) ∧
    makes_retrieval_call (handle_user_interaction true "  ") = false ∧
    makes_judge_call (handle_user_interaction true "  ") = false ∧
    (true = true → handle_user_interaction true "  " = .warn) :=
  empty_question_short_circuits true "  " (by decide)

/-! ### RAGAS evaluation engine (`evaluation/ragas_evaluator.py`)

The four judge chains (`evaluate_faithfulness`, `evaluate_answer_relevancy`,
`evaluate_context_precision`, `evaluate_context_recall`) are language-model
calls that may raise; they are modelled as `Except String`-valued fields of
`RagasJudges`. `calculate_semantic_similarity` catches its own exceptions
and returns `0.0`, so it is modelled as a total function. Scores are `ℚ`.
The per-dimension reasoning sub-dictionaries of `details` are elided; the
`details` constructor records the success-path auxiliary similarity score or
the error-path annotation `{"error": str(e)}`. -/

structure FaithfulnessEval where
  score : ℚ
  reasoning : String
  contradictions : List String
deriving DecidableEq, Repr

structure AnswerRelevancyEval where
  score : ℚ
  reasoning : String
  key_points_addressed : List String
  missing_points : List String
deriving DecidableEq, Repr

structure ContextPrecisionEval where
  score : ℚ
  reasoning : String
  relevant_chunks : Nat
  total_chunks : Nat
deriving DecidableEq, Repr

structure ContextRecallEval where
  score : ℚ
  reasoning : String
  retrieved_info : List String
  missing_info : List String
deriving DecidableEq, Repr

inductive RAGASDetails where
  | ok (semantic_similarity : ℚ)
  | err (msg : String)
deriving DecidableEq, Repr

structure RAGASResult where
  faithfulness : ℚ
  answer_relevancy : ℚ
  context_precision : ℚ
  context_recall : ℚ
  overall_score : ℚ
  details : RAGASDetails
deriving DecidableEq, Repr

/-- The judge calls of `RAGASEvaluator` (ragas_evaluator.py lines 140-173),
as functions of the runtime variables each prompt binds. -/
structure RagasJudges where
  evaluate_faithfulness : String → String → Except String FaithfulnessEval
  evaluate_answer_relevancy : String → String → Except String AnswerRelevancyEval
  evaluate_context_precision : String → String → Except String ContextPrecisionEval
  evaluate_context_recall : String → String → String → Except String ContextRecallEval
  semantic_similarity : String → String → ℚ

/-- Shallow embedding of `RAGASEvaluator.evaluate_single_qa`
(ragas_evaluator.py lines 175-238): the four judge calls run in order inside
one `try`; the first exception aborts the question's evaluation and yields
the all-zero default annotated with the error text; on success the overall
score is the weighted sum `0.3/0.3/0.2/0.2`. -/
def ragas_error_result (e : String) : RAGASResult :=
  { faithfulness := 0
    answer_relevancy := 0
    context_precision := 0
    context_recall := 0
    overall_score := 0
    details := .err e }

def evaluate_single_qa (J : RagasJudges)
    (question answer context ground_truth : String) : RAGASResult :=
  match J.evaluate_faithfulness answer context with
  | .error e => ragas_error_result e
  | .ok f =>
    match J.evaluate_answer_relevancy question answer with
    | .error e => ragas_error_result e
    | .ok r =>
      match J.evaluate_context_precision question context with
      | .error e => ragas_error_result e
      | .ok p =>
        match J.evaluate_context_recall question context ground_truth with
        | .error e => ragas_error_result e
        | .ok c =>
          { faithfulness := f.score
            answer_relevancy := r.score
            context_precision := p.score
            context_recall := c.score
            overall_score :=
              f.score * (3/10) + r.score * (3/10) + p.score * (2/10) + c.score * (2/10)
            details := .ok (J.semantic_similarity answer ground_truth) }

/-- One item of a RAGAS batch (`test_cases` entry, ragas_evaluator.py lines
240-248; `context` is read with `case.get("context", "")`). -/
structure RagasCase where
  question : String
  answer : String
  context : String
  ground_truth : String
deriving DecidableEq, Repr

/-- Shallow embedding of `RAGASEvaluator.evaluate_batch` (lines 240-250):
each case is evaluated independently and appended. -/
def evaluate_batch (J : RagasJudges) (test_cases : List RagasCase) : List RAGASResult :=
  test_cases.map (fun case =>
    evaluate_single_qa J case.question case.answer case.context case.ground_truth)

/-- Arithmetic mean used by `np.mean` over per-result fields. -/
def list_mean (xs : List ℚ) : ℚ := xs.sum / xs.length

/-- The mean fields of `RAGASEvaluator.get_aggregate_metrics` (lines
252-267); the standard-deviation and total-time entries are elided. The
empty-batch guard returns `{}`, modelled as `none`. -/
structure AggregateMetrics where
  avg_faithfulness : ℚ
  avg_answer_relevancy : ℚ
  avg_context_precision : ℚ
  avg_context_recall : ℚ
  avg_overall_score : ℚ
deriving DecidableEq, Repr

def get_aggregate_metrics (results : List RAGASResult) : Option AggregateMetrics :=
  if results = [] then none
  else some
    { avg_faithfulness := list_mean (results.map (·.faithfulness))
      avg_answer_relevancy := list_mean (results.map (·.answer_relevancy))
      avg_context_precision := list_mean (results.map (·.context_precision))
      avg_context_recall := list_mean (results.map (·.context_recall))
      avg_overall_score := list_mean (results.map (·.overall_score)) }

theorem evaluate_single_qa_overall (J : RagasJudges)
    (question answer context ground_truth : String) :
    (evaluate_single_qa J question answer context ground_truth).overall_score =
      (evaluate_single_qa J question answer context ground_truth).faithfulness * (3/10) +
      (evaluate_single_qa J question answer context ground_truth).answer_relevancy * (3/10) +
      (evaluate_single_qa J question answer context ground_truth).context_precision * (2/10) +
      (evaluate_single_qa J question answer context ground_truth).context_recall * (2/10) := by
  unfold evaluate_single_qa
  rcases J.evaluate_faithfulness answer context with e | f
  · simp [ragas_error_result]
  rcases J.evaluate_answer_relevancy question answer with e | r
  · simp [ragas_error_result]
  rcases J.evaluate_context_precision question context with e | p
  · simp [ragas_error_result]
  rcases J.evaluate_context_recall question context ground_truth with e | c
  · simp [ragas_error_result]
  simp

theorem weighted_sum_of_means (rs : List RAGASResult)
    (h : ∀ x ∈ rs, x.overall_score =
      x.faithfulness * (3/10) + x.answer_relevancy * (3/10) +
      x.context_precision * (2/10) + x.context_recall * (2/10)) :
    (rs.map (·.overall_score)).sum =
      (rs.map (·.faithfulness)).sum * (3/10) +
      (rs.map (·.answer_relevancy)).sum * (3/10) +
      (rs.map (·.context_precision)).sum * (2/10) +
      (rs.map (·.context_recall)).sum * (2/10) := by
  induction rs with
  | nil => simp
  | cons x xs ih =>
    have hx := h x (List.mem_cons_self x xs)
    have hxs := ih (fun y hy => h y (List.mem_cons_of_mem x hy))
    simp only [List.map_cons, List.sum_cons, hx, hxs]
    ring

theorem list_mean_weighted (rs : List RAGASResult)
    (h : ∀ x ∈ rs, x.overall_score =
      x.faithfulness * (3/10) + x.answer_relevancy * (3/10) +
      x.context_precision * (2/10) + x.context_recall * (2/10)) :
    list_mean (rs.map (·.overall_score)) =
      list_mean (rs.map (·.faithfulness)) * (3/10) +
      list_mean (rs.map (·.answer_relevancy)) * (3/10) +
      list_mean (rs.map (·.context_precision)) * (2/10) +
      list_mean (rs.map (·.context_recall)) * (2/10) := by
  unfold list_mean
  rw [weighted_sum_of_means rs h]
  simp only [List.length_map]
  ring

/-- C6: every evaluated item's RAGAS overall score is
`0.3·faithfulness + 0.3·answer_relevancy + 0.2·context_precision +
0.2·context_recall`, and for every non-empty batch the aggregate metrics
exist and their mean overall score is the same weighted sum of the four
per-dimension means (exactly, in `ℚ`, hence within any tolerance). -/
theorem ragas_overall_weighted_sum (J : RagasJudges) (test_cases : List RagasCase)
    (h : test_cases ≠ []) :
    (∀ question answer context ground_truth,
      (evaluate_single_qa J question answer context ground_truth).overall_score =
        (evaluate_single_qa J question answer context ground_truth).faithfulness * (3/10) +
        (evaluate_single_qa J question answer context ground_truth).answer_relevancy * (3/10) +
        (evaluate_single_qa J question answer context ground_truth).context_precision * (2/10) +
        (evaluate_single_qa J question answer context ground_truth).context_recall * (2/10)) ∧
    get_aggregate_metrics (evaluate_batch J test_cases) = some
      { avg_faithfulness := list_mean ((evaluate_batch J test_cases).map (·.faithfulness))
        avg_answer_relevancy :=
          list_mean ((evaluate_batch J test_cases).map (·.answer_relevancy))
        avg_context_precision :=
          list_mean ((evaluate_batch J test_cases).map (·.context_precision))
        avg_context_recall := list_mean ((evaluate_batch J test_cases).map (·.context_recall))
        avg_overall_score :=
          list_mean ((evaluate_batch J test_cases).map (·.faithfulness)) * (3/10) +
          list_mean ((evaluate_batch J test_cases).map (·.answer_relevancy)) * (3/10) +
          list_mean ((evaluate_batch J test_cases).map (·.context_precision)) * (2/10) +
          list_mean ((evaluate_batch J test_cases).map (·.context_recall)) * (2/10) } := by
  refine ⟨fun q a c g => evaluate_single_qa_overall J q a c g, ?_⟩
  have hne : evaluate_batch J test_cases ≠ [] := by
    simpa [evaluate_batch] using h
  have hitem : ∀ x ∈ evaluate_batch J test_cases, x.overall_score =
      x.faithfulness * (3/10) + x.answer_relevancy * (3/10) +
      x.context_precision * (2/10) + x.context_recall * (2/10) := by
    intro x hx
    obtain ⟨case, -, rfl⟩ := List.mem_map.mp hx
    exact evaluate_single_qa_overall J case.question case.answer case.context case.ground_truth
  unfold get_aggregate_metrics
  rw [if_neg hne]
  congr 1
  rw [AggregateMetrics.mk.injEq]
  refine ⟨rfl, rfl, rfl, rfl, ?_⟩
  exact list_mean_weighted _ hitem

/-- Constant-success judge stub used to instantiate the RAGAS theorems. -/
def ragas_judges_const : RagasJudges :=
  { evaluate_faithfulness := fun _ _ => .ok ⟨1, "fiel", []⟩
    evaluate_answer_relevancy := fun _ _ => .ok ⟨1/2, "relevante", [], []⟩
    evaluate_context_precision := fun _ _ => .ok ⟨1, "preciso", 1, 1⟩
    evaluate_context_recall := fun _ _ _ => .ok ⟨0, "incompleto", [], []⟩
    semantic_similarity := fun _ _ => 0 }

/-- C6 witness: a singleton batch under the constant judge stub evaluates to
the aggregate record `⟨1, 1/2, 1, 0, 13/20⟩`, and `13/20` is the weighted sum
`1·0.3 + (1/2)·0.3 + 1·0.2 + 0·0.2`. -/
theorem ragas_overall_weighted_sum_witness :
    get_aggregate_metrics (evaluate_batch ragas_judges_const [⟨"q", "a", "c", "g"⟩]) =
      some ⟨1, 1/2, 1, 0, 13/20⟩ := by
  have h := ragas_overall_weighted_sum ragas_judges_const [⟨"q", "a", "c", "g"⟩] (by simp)
  rw [h.2]
  norm_num [evaluate_batch, evaluate_single_qa, ragas_judges_const, list_mean]

/-! ### GISKARD evaluation engine (`evaluation/giskard_evaluator.py`)

The LLM judgment chains are modelled as `Except String`-valued parameters
(the prompt assembly feeding each chain is folded into the opaque judge);
the pure heuristics of `evaluate_bias` are embedded in full. The
`evaluate_robustness` dimension (lines 247-309) is embedded with its
stress-test loop, token-set Jaccard similarity, per-variant error handling
and caught LLM-phase failure (whose fallback score is the heuristic stress
mean, not a fixed constant); the external RAG system it re-runs and the
five question perturbation generators that involve only string rewriting
(typos, synonyms, length, complexity, edge cases) are parameters, while
`_generate_format_variants` — whose first element the LLM phase uses as the
representative variant — is embedded concretely. In `evaluate_consistency`
the term-usage/length-variation heuristics are computed and then discarded
by the source (the success path returns `llm_eval` unchanged), so only the
judge call and the error default are modelled. Python dicts of named
numbers are association lists. -/

structure QAPair where
  question : String
  answer : String
  context : String
  ground_truth : String
deriving DecidableEq, Repr

structure RobustnessEval where
  score : ℚ
  reasoning : String
  vulnerability_areas : List String
  stress_test_results : List (String × ℚ)
deriving DecidableEq, Repr

structure BiasEval where
  score : ℚ
  reasoning : String
  detected_biases : List String
  fairness_issues : List String
deriving DecidableEq, Repr

structure PerformanceEval where
  score : ℚ
  reasoning : String
  accuracy_metrics : List (String × ℚ)
  efficiency_metrics : List (String × ℚ)
deriving DecidableEq, Repr

structure ConsistencyEval where
  score : ℚ
  reasoning : String
  variation_analysis : List (String × ℚ)
  stability_issues : List String
deriving DecidableEq, Repr

/-- Whether `pat` occurs at the head of `s` (helper for Python `in`). -/
def leads_with (pat s : List Char) : Bool :=
  match pat, s with
  | [], _ => true
  | _ :: _, [] => false
  | a :: ps, b :: ss => a == b && leads_with ps ss

/-- Python substring test `needle in hay` on character lists. -/
def has_substring (pat : List Char) : List Char → Bool
  | [] => leads_with pat []
  | s@(_ :: t) => leads_with pat s || has_substring pat t

def str_in (needle hay : String) : Bool := has_substring needle.data hay.data

def geographic_terms : List String :=
  ["brasil", "brazil", "nordeste", "sudeste", "norte", "sul"]

def temporal_terms : List String :=
  ["atual", "moderno", "antigo", "recente", "histórico"]

def methodology_terms : List String :=
  ["thornthwaite", "penman", "blaney-criddle", "hargreaves"]

/-- The positive per-term mention counts collected into `defaultdict(int)`
maps in `evaluate_bias` (giskard_evaluator.py lines 334-341 and 352-358):
for each term, the number of lower-cased answers containing it; terms never
mentioned get no entry. -/
def mention_counts (terms : List String) (qa_pairs : List QAPair) : List Nat :=
  (terms.map (fun term =>
    qa_pairs.countP (fun qa => str_in term (py_lower qa.answer)))).filter
    (fun n => n != 0)

/-- The `max(...) > factor * np.mean(list(...))` skew test guarded by
`len(...) > 0` (lines 342 and 360). -/
def skewed (factor : ℚ) (counts : List Nat) : Bool :=
  !counts.isEmpty &&
    decide (((counts.foldr max 0 : Nat) : ℚ) >
      factor * ((counts.sum : ℚ) / (counts.length : ℚ)))

/-- The temporal-balance test (lines 345-348): total count of (answer, term)
hits exceeding `0.7` per batch item. -/
def temporal_skewed (qa_pairs : List QAPair) : Bool :=
  decide (((qa_pairs.map (fun qa =>
      temporal_terms.countP (fun term => str_in term (py_lower qa.answer)))).sum : ℚ) >
    (qa_pairs.length : ℚ) * (7/10))

/-- The heuristic `detected_biases` list built by `evaluate_bias` before the
LLM call (lines 330-361), in source order: geographic, temporal,
methodological. -/
def detected_bias_heuristics (qa_pairs : List QAPair) : List String :=
  (if skewed 3 (mention_counts geographic_terms qa_pairs) then
    ["Possível viés geográfico detectado"] else []) ++
  (if temporal_skewed qa_pairs then
    ["Possível viés temporal detectado"] else []) ++
  (if skewed 2 (mention_counts methodology_terms qa_pairs) then
    ["Possível viés metodológico detectado"] else [])

/-- Shallow embedding of `GiskardEvaluator.evaluate_bias` (lines 328-395).
The heuristics cannot raise, so the `try` guards only the judge call; on
success the judge's score is decremented by `0.1` for every entry of the
*combined* detected-bias list (heuristics plus the judge's own), floored at
`0`; on failure the neutral default `0.5` is annotated with the error. -/
def evaluate_bias (bias_judge : List QAPair → Except String BiasEval)
    (qa_pairs : List QAPair) : BiasEval :=
  let detected_biases := detected_bias_heuristics qa_pairs
  match bias_judge qa_pairs with
  | .ok llm_eval =>
    let all_detected_biases := detected_biases ++ llm_eval.detected_biases
    let all_fairness_issues := llm_eval.fairness_issues
    { score := max 0 (llm_eval.score - (all_detected_biases.length : ℚ) * (1/10))
      reasoning := llm_eval.reasoning
      detected_biases := all_detected_biases
      fairness_issues := all_fairness_issues }
  | .error e =>
    { score := 1/2
      reasoning := "Error in bias evaluation: " ++ e
      detected_biases := ["Erro na avaliação de viés"]
      fairness_issues := [] }

/-- Shallow embedding of `GiskardEvaluator.evaluate_performance` (lines
397-418). -/
def evaluate_performance (performance_judge : QAPair → ℚ → Except String PerformanceEval)
    (qa_pair : QAPair) (response_time : ℚ) : PerformanceEval :=
  match performance_judge qa_pair response_time with
  | .ok result => result
  | .error e =>
    { score := 1/2
      reasoning := "Error in performance evaluation: " ++ e
      accuracy_metrics := []
      efficiency_metrics := [("response_time", response_time)] }

/-- Shallow embedding of `GiskardEvaluator.evaluate_consistency` (lines
420-468); the success path returns the judge's evaluation unchanged. -/
def evaluate_consistency (consistency_judge : List QAPair → Except String ConsistencyEval)
    (qa_pairs : List QAPair) : ConsistencyEval :=
  match consistency_judge qa_pairs with
  | .ok llm_eval => llm_eval
  | .error e =>
    { score := 1/2
      reasoning := "Error in consistency evaluation: " ++ e
      variation_analysis := []
      stability_issues := ["Erro na avaliação de consistência"] }

/-- Python `str.upper()` (per-character ASCII upper-casing, as used by
`_generate_format_variants`). -/
def py_upper (s : String) : String := ⟨s.data.map Char.toUpper⟩

/-- Python slicing `s[:50]` used in the vulnerability messages. -/
def str_head50 (s : String) : String := ⟨s.data.take 50⟩

/-- Helper for Python `str.split()`: split on whitespace runs, dropping
empty pieces; `acc` holds the characters of the current word reversed. -/
def split_ws_aux : List Char → List Char → List String
  | acc, [] => if acc = [] then [] else [⟨acc.reverse⟩]
  | acc, c :: t =>
    if c.isWhitespace then
      (if acc = [] then [] else [⟨acc.reverse⟩]) ++ split_ws_aux [] t
    else split_ws_aux (c :: acc) t

def py_split_ws (s : String) : List String := split_ws_aux [] s.data

/-- Distinct elements of a list, modelling Python `set(...)` (only
cardinalities and membership of the sets are consumed). -/
def nub : List String → List String
  | [] => []
  | c :: t => c :: (nub t).filter (fun x => x != c)

/-- Shallow embedding of `GiskardEvaluator._calculate_response_similarity`
(giskard_evaluator.py lines 311-326): token-set Jaccard similarity of the
lower-cased whitespace-split answers, with the source's empty-input
short-circuits. -/
def response_similarity (response1 response2 : String) : ℚ :=
  if response1 = "" ∨ response2 = "" then 0
  else
    let tokens1 := nub (py_split_ws (py_lower response1))
    let tokens2 := nub (py_split_ws (py_lower response2))
    if tokens1 = [] ∧ tokens2 = [] then 1
    else if tokens1 = [] ∨ tokens2 = [] then 0
    else
      let intersection := (tokens1.filter (fun t => tokens2.contains t)).length
      let union := (nub (tokens1 ++ tokens2)).length
      if union > 0 then (intersection : ℚ) / (union : ℚ) else 0

/-- The mapping returned by the external RAG system (`rag_system_func`);
the code reads it with `variant_response.get("solution", "")`, modelled as
the field itself. -/
structure RagAnswer where
  solution : String
deriving DecidableEq, Repr

/-- The five perturbation generators of `robustness_tests` that involve
only pure string rewriting of the question (giskard_evaluator.py lines
174-245), as parameters; `_generate_format_variants` is embedded
concretely below because the LLM phase reuses its first element. -/
structure VariantGenerators where
  typos : String → List String
  synonyms : String → List String
  length_variants : String → List String
  complexity : String → List String
  edge_cases : String → List String

/-- Shallow embedding of `GiskardEvaluator._generate_format_variants`
(lines 196-203): upper-cased, lower-cased, question mark stripped
(`replace("?", "")`), and two templated rephrasings. -/
def generate_format_variants (question : String) : List String :=
  [py_upper question,
   py_lower question,
   ⟨question.data.filter (fun c => c != '?')⟩,
   "Me explique: " ++ py_lower question,
   "Gostaria de saber " ++ py_lower question]

/-- `self._generate_format_variants(original_question)[0]` (line 283): the
representative variant fed to the robustness LLM judgment. -/
def representative_variant (question : String) : String :=
  (generate_format_variants question).headD ""

/-- One entry of the `for test_name, test_generator` loop of
`evaluate_robustness` (lines 254-275): run every non-blank variant through
the RAG system (which may raise), score it by Jaccard similarity against
the original answer (appending `0.0` and an error note when the call
raises, and a vulnerability note when similarity drops below `0.5`), and
average; an empty score list yields `0.0`. Returns the test's mean score
and its vulnerability messages. -/
def run_stress_test (rag_system_func : String → Except String RagAnswer)
    (original_answer test_name : String) (variants : List String) :
    ℚ × List String :=
  let step := fun (acc : List ℚ × List String) (variant : String) =>
    if py_strip variant = "" then acc
    else
      match rag_system_func variant with
      | .ok variant_response =>
        let similarity := response_similarity original_answer variant_response.solution
        (acc.1 ++ [similarity],
         if similarity < 1/2 then
           acc.2 ++ [test_name ++ ": " ++ str_head50 variant ++ "..."]
         else acc.2)
      | .error e =>
        (acc.1 ++ [0], acc.2 ++ [test_name ++ ": Error - " ++ str_head50 e])
  let r := variants.foldl step ([], [])
  (if r.1 = [] then 0 else list_mean r.1, r.2)

/-- The stress-test phase of `evaluate_robustness` (lines 251-277): the six
tests of `robustness_tests` in dict-insertion order, producing the
`test_results` mapping and the accumulated `vulnerability_areas`. -/
def robustness_stress_phase (gens : VariantGenerators)
    (rag_system_func : String → Except String RagAnswer) (original_qa : QAPair) :
    List (String × ℚ) × List String :=
  let t_typos := run_stress_test rag_system_func original_qa.answer "typos"
    (gens.typos original_qa.question)
  let t_format := run_stress_test rag_system_func original_qa.answer "formatting"
    (generate_format_variants original_qa.question)
  let t_synonyms := run_stress_test rag_system_func original_qa.answer "synonyms"
    (gens.synonyms original_qa.question)
  let t_length := run_stress_test rag_system_func original_qa.answer "length"
    (gens.length_variants original_qa.question)
  let t_complexity := run_stress_test rag_system_func original_qa.answer "complexity"
    (gens.complexity original_qa.question)
  let t_edge := run_stress_test rag_system_func original_qa.answer "edge_cases"
    (gens.edge_cases original_qa.question)
  ([("typos", t_typos.1), ("formatting", t_format.1), ("synonyms", t_synonyms.1),
    ("length", t_length.1), ("complexity", t_complexity.1), ("edge_cases", t_edge.1)],
   t_typos.2 ++ t_format.2 ++ t_synonyms.2 ++ t_length.2 ++ t_complexity.2 ++ t_edge.2)

/-- Shallow embedding of `GiskardEvaluator.evaluate_robustness` (lines
247-309). `overall_robustness = np.mean(list(test_results.values()))` is
the mean of the six stress-test scores. The final `try` covers both the
RAG call on the representative variant and the LLM judge call: on success
the final score blends the heuristic mean and the judge's score with equal
weight; on any exception the heuristic mean itself is returned, with the
reasoning annotated `Automated evaluation only. Error in LLM eval: ...`. -/
def evaluate_robustness (gens : VariantGenerators)
    (rag_system_func : String → Except String RagAnswer)
    (robustness_judge :
      String → String → String → String → String → Except String RobustnessEval)
    (original_qa : QAPair) : RobustnessEval :=
  match rag_system_func (representative_variant original_qa.question) with
  | .error e =>
    { score := list_mean
        ((robustness_stress_phase gens rag_system_func original_qa).1.map (·.2))
      reasoning := "Automated evaluation only. Error in LLM eval: " ++ e
      vulnerability_areas := (robustness_stress_phase gens rag_system_func original_qa).2
      stress_test_results := (robustness_stress_phase gens rag_system_func original_qa).1 }
  | .ok variant_response =>
    match robustness_judge original_qa.question
        (representative_variant original_qa.question) original_qa.answer
        variant_response.solution original_qa.context with
    | .error e =>
      { score := list_mean
          ((robustness_stress_phase gens rag_system_func original_qa).1.map (·.2))
        reasoning := "Automated evaluation only. Error in LLM eval: " ++ e
        vulnerability_areas := (robustness_stress_phase gens rag_system_func original_qa).2
        stress_test_results := (robustness_stress_phase gens rag_system_func original_qa).1 }
    | .ok llm_eval =>
      { score := (list_mean
          ((robustness_stress_phase gens rag_system_func original_qa).1.map (·.2)) +
          llm_eval.score) / 2
        reasoning := llm_eval.reasoning
        vulnerability_areas := (robustness_stress_phase gens rag_system_func original_qa).2
        stress_test_results := (robustness_stress_phase gens rag_system_func original_qa).1 }

theorem evaluate_robustness_rag_error (gens : VariantGenerators)
    (rag_system_func : String → Except String RagAnswer)
    (robustness_judge :
      String → String → String → String → String → Except String RobustnessEval)
    (original_qa : QAPair) (e : String)
    (h : rag_system_func (representative_variant original_qa.question) = .error e) :
    evaluate_robustness gens rag_system_func robustness_judge original_qa =
      { score := list_mean
          ((robustness_stress_phase gens rag_system_func original_qa).1.map (·.2))
        reasoning := "Automated evaluation only. Error in LLM eval: " ++ e
        vulnerability_areas := (robustness_stress_phase gens rag_system_func original_qa).2
        stress_test_results :=
          (robustness_stress_phase gens rag_system_func original_qa).1 } := by
  unfold evaluate_robustness
  rw [h]

theorem evaluate_robustness_judge_error (gens : VariantGenerators)
    (rag_system_func : String → Except String RagAnswer)
    (robustness_judge :
      String → String → String → String → String → Except String RobustnessEval)
    (original_qa : QAPair) (vr : RagAnswer) (e : String)
    (hok : rag_system_func (representative_variant original_qa.question) = .ok vr)
    (herr : robustness_judge original_qa.question
      (representative_variant original_qa.question) original_qa.answer
      vr.solution original_qa.context = .error e) :
    evaluate_robustness gens rag_system_func robustness_judge original_qa =
      { score := list_mean
          ((robustness_stress_phase gens rag_system_func original_qa).1.map (·.2))
        reasoning := "Automated evaluation only. Error in LLM eval: " ++ e
        vulnerability_areas := (robustness_stress_phase gens rag_system_func original_qa).2
        stress_test_results :=
          (robustness_stress_phase gens rag_system_func original_qa).1 } := by
  unfold evaluate_robustness
  simp only [hok]
  rw [herr]

/-- The external calls `evaluate_comprehensive` depends on: the RAG system
and question perturbation generators driving the robustness dimension, and
the four LLM judge chains. -/
structure GiskardEnv where
  variant_gens : VariantGenerators
  rag_system_func : String → Except String RagAnswer
  robustness_judge :
    String → String → String → String → String → Except String RobustnessEval
  bias_judge : List QAPair → Except String BiasEval
  performance_judge : QAPair → ℚ → Except String PerformanceEval
  consistency_judge : List QAPair → Except String ConsistencyEval

/-- Result record of `evaluate_comprehensive`; the `details` dictionary and
wall-clock `evaluation_time` are elided. -/
structure GiskardResult where
  robustness_score : ℚ
  bias_score : ℚ
  performance_score : ℚ
  consistency_score : ℚ
  overall_risk_score : ℚ
  recommendations : List String
deriving DecidableEq, Repr

/-- Shallow embedding of `GiskardEvaluator.evaluate_comprehensive` (lines
470-537): empty batches short-circuit to the all-zero result with risk `1`;
otherwise the four dimensions are evaluated, the risk score is one minus
their equal-weight (`0.25` each) blend, and sub-`0.7` dimensions append
canned recommendations. `response_times[0] if response_times else 1000.0`
selects the measured latency. -/
def evaluate_comprehensive (env : GiskardEnv) (qa_pairs : List QAPair)
    (response_times : List ℚ) : GiskardResult :=
  match qa_pairs with
  | [] =>
    { robustness_score := 0
      bias_score := 0
      performance_score := 0
      consistency_score := 0
      overall_risk_score := 1
      recommendations := ["Nenhum dado para avaliação"] }
  | qa0 :: _ =>
    let robustness_eval :=
      evaluate_robustness env.variant_gens env.rag_system_func env.robustness_judge qa0
    let bias_eval := evaluate_bias env.bias_judge qa_pairs
    let performance_eval := evaluate_performance env.performance_judge qa0
      (match response_times with | [] => 1000 | t :: _ => t)
    let consistency_eval := evaluate_consistency env.consistency_judge qa_pairs
    let risk_score := 1 -
      (robustness_eval.score * (1/4) + bias_eval.score * (1/4) +
       performance_eval.score * (1/4) + consistency_eval.score * (1/4))
    { robustness_score := robustness_eval.score
      bias_score := bias_eval.score
      performance_score := performance_eval.score
      consistency_score := consistency_eval.score
      overall_risk_score := risk_score
      recommendations :=
        (if robustness_eval.score < 7/10 then
          ["Melhorar robustez contra variações de entrada"] else []) ++
        (if bias_eval.score < 7/10 then
          ["Revisar potenciais vieses nas respostas"] else []) ++
        (if performance_eval.score < 7/10 then
          ["Otimizar precisão e qualidade das respostas"] else []) ++
        (if consistency_eval.score < 7/10 then
          ["Melhorar consistência entre respostas relacionadas"] else []) }


/-! ### Claims about the evaluation engines -/

/-- Batch item with an answer free of every heuristic bias term, used to
instantiate the GISKARD theorems. -/
def qa_abc : QAPair := ⟨"q", "abc", "", ""⟩

/-- Bias judge stub that succeeds with score `4/5` while itself reporting
one bias. -/
def bias_judge_stub : List QAPair → Except String BiasEval :=
  fun _ => .ok ⟨4/5, "razão", ["viés apontado pelo juiz"], []⟩

theorem temporal_skewed_abc : temporal_skewed [qa_abc] = false := by
  have hsum : (List.map (fun qa =>
      temporal_terms.countP (fun term => str_in term (py_lower qa.answer)))
      [qa_abc]).sum = 0 := rfl
  unfold temporal_skewed
  rw [hsum]
  simp only [decide_eq_false_iff_not, List.length_singleton, Nat.cast_zero, Nat.cast_one]
  norm_num

theorem detected_bias_heuristics_abc : detected_bias_heuristics [qa_abc] = [] := by
  have hg : skewed 3 (mention_counts geographic_terms [qa_abc]) = false := rfl
  have hm : skewed 2 (mention_counts methodology_terms [qa_abc]) = false := rfl
  unfold detected_bias_heuristics
  rw [hg, temporal_skewed_abc, hm]
  simp

theorem evaluate_bias_stub_eq :
    evaluate_bias bias_judge_stub [qa_abc] =
      ⟨7/10, "razão", ["viés apontado pelo juiz"], []⟩ := by
  unfold evaluate_bias bias_judge_stub
  simp only [detected_bias_heuristics_abc, List.nil_append, BiasEval.mk.injEq,
    List.length_singleton, Nat.cast_one, and_true, true_and]
  rw [max_eq_right (by norm_num)]
  norm_num

/-- C7: for every non-empty batch, the GISKARD overall risk score is one
minus the equal-weight (`0.25` each) blend of the four dimension scores of
the same result, equivalently one minus their arithmetic mean (exactly, in
`ℚ`). -/
theorem giskard_risk_complement_of_mean (env : GiskardEnv) (qa_pairs : List QAPair)
    (response_times : List ℚ) (h : qa_pairs ≠ []) :
    (evaluate_comprehensive env qa_pairs response_times).overall_risk_score =
      1 - ((evaluate_comprehensive env qa_pairs response_times).robustness_score * (1/4) +
           (evaluate_comprehensive env qa_pairs response_times).bias_score * (1/4) +
           (evaluate_comprehensive env qa_pairs response_times).performance_score * (1/4) +
           (evaluate_comprehensive env qa_pairs response_times).consistency_score * (1/4)) ∧
    (evaluate_comprehensive env qa_pairs response_times).overall_risk_score =
      1 - ((evaluate_comprehensive env qa_pairs response_times).robustness_score +
           (evaluate_comprehensive env qa_pairs response_times).bias_score +
           (evaluate_comprehensive env qa_pairs response_times).performance_score +
           (evaluate_comprehensive env qa_pairs response_times).consistency_score) / 4 := by
  match qa_pairs, h with
  | qa0 :: rest, _ =>
    have h1 : (evaluate_comprehensive env (qa0 :: rest) response_times).overall_risk_score =
      1 - ((evaluate_comprehensive env (qa0 :: rest) response_times).robustness_score * (1/4) +
           (evaluate_comprehensive env (qa0 :: rest) response_times).bias_score * (1/4) +
           (evaluate_comprehensive env (qa0 :: rest) response_times).performance_score * (1/4) +
           (evaluate_comprehensive env (qa0 :: rest) response_times).consistency_score * (1/4)) :=
      rfl
    refine ⟨h1, ?_⟩
    rw [h1]
    ring

/-- Perturbation-generator stub producing no variants, used to instantiate
the theorems. -/
def variant_gens_none : VariantGenerators :=
  ⟨fun _ => [], fun _ => [], fun _ => [], fun _ => [], fun _ => []⟩

/-- RAG system stub that always raises, used to instantiate the theorems. -/
def rag_system_fail : String → Except String RagAnswer :=
  fun _ => .error "sem resposta"

/-- Robustness judge stub that always succeeds, used to instantiate the
theorems (it is never consulted when the RAG call raises first). -/
def robustness_judge_const :
    String → String → String → String → String → Except String RobustnessEval :=
  fun _ _ _ _ _ => .ok ⟨1, "robusto", [], []⟩

/-- Concrete evaluation of the stress phase when every RAG call raises: the
five non-blank formatting variants each contribute score `0` and an error
note, the five parameterised generators contribute nothing. -/
theorem robustness_stress_phase_fail_eval :
    robustness_stress_phase variant_gens_none rag_system_fail qa_abc =
      ([("typos", 0), ("formatting", list_mean [0, 0, 0, 0, 0]), ("synonyms", 0),
        ("length", 0), ("complexity", 0), ("edge_cases", 0)],
       ["formatting: Error - sem resposta", "formatting: Error - sem resposta",
        "formatting: Error - sem resposta", "formatting: Error - sem resposta",
        "formatting: Error - sem resposta"]) := rfl

/-- The heuristic stress mean of the all-raising stub is `0`. -/
theorem robustness_stress_mean_fail_eval :
    list_mean
      ((robustness_stress_phase variant_gens_none rag_system_fail qa_abc).1.map (·.2)) =
      0 := by
  rw [robustness_stress_phase_fail_eval]
  have h5 : list_mean [(0 : ℚ), 0, 0, 0, 0] = 0 := by
    norm_num [list_mean]
  simp only [List.map_cons, List.map_nil, h5]
  norm_num [list_mean]

/-- Constant-judge GISKARD environment used to instantiate the theorems. -/
def giskard_env_const : GiskardEnv :=
  { variant_gens := variant_gens_none
    rag_system_func := rag_system_fail
    robustness_judge := robustness_judge_const
    bias_judge := fun _ => .ok ⟨1, "sem viés", [], []⟩
    performance_judge := fun _ _ => .ok ⟨1, "bom", [], []⟩
    consistency_judge := fun _ => .ok ⟨0, "instável", [], []⟩ }

/-- C7 witness: on a one-item batch under `giskard_env_const` the dimension
scores are `0, 1, 1, 0` (the robustness RAG stub raises, so that dimension
falls back to its heuristic mean `0`) and the risk score evaluates to
`1 − (0 + 1 + 1 + 0)/4 = 1/2`. -/
theorem giskard_risk_complement_of_mean_witness :
    (evaluate_comprehensive giskard_env_const [qa_abc] []).overall_risk_score = 1/2 := by
  rw [(giskard_risk_complement_of_mean giskard_env_const [qa_abc] [] (by simp)).2]
  have hr : (evaluate_comprehensive giskard_env_const [qa_abc] []).robustness_score =
      0 := by
    show (evaluate_robustness variant_gens_none rag_system_fail robustness_judge_const
      qa_abc).score = 0
    rw [evaluate_robustness_rag_error variant_gens_none rag_system_fail
      robustness_judge_const qa_abc "sem resposta" rfl]
    exact robustness_stress_mean_fail_eval
  have hb : (evaluate_comprehensive giskard_env_const [qa_abc] []).bias_score = 1 := by
    show (evaluate_bias giskard_env_const.bias_judge [qa_abc]).score = 1
    unfold evaluate_bias giskard_env_const
    simp only [detected_bias_heuristics_abc, List.nil_append, List.length_nil,
      Nat.cast_zero]
    rw [max_eq_right (by norm_num)]
    norm_num
  have hp : (evaluate_comprehensive giskard_env_const [qa_abc] []).performance_score =
      1 := rfl
  have hc : (evaluate_comprehensive giskard_env_const [qa_abc] []).consistency_score =
      0 := rfl
  rw [hr, hb, hp, hc]
  norm_num

/-- C8 counterexample: one answer with no heuristically detectable bias, and
a judge that succeeds with score `4/5` while itself reporting one bias. The
claim's formula (judge score minus `0.1` per *heuristic* detection, floored
at `0`) gives `4/5`, but the code returns `7/10`: the judge-reported bias
also decrements. -/
theorem bias_penalty_counts_judge_biases :
    bias_judge_stub [qa_abc] = .ok ⟨4/5, "razão", ["viés apontado pelo juiz"], []⟩ ∧
    detected_bias_heuristics [qa_abc] = [] ∧
    (evaluate_bias bias_judge_stub [qa_abc]).score = 7/10 ∧
    ¬((evaluate_bias bias_judge_stub [qa_abc]).score =
        max 0 (4/5 - ((detected_bias_heuristics [qa_abc]).length : ℚ) * (1/10))) := by
  refine ⟨rfl, detected_bias_heuristics_abc, ?_, ?_⟩
  · rw [evaluate_bias_stub_eq]
  · rw [evaluate_bias_stub_eq, detected_bias_heuristics_abc]
    simp only [List.length_nil, Nat.cast_zero, zero_mul, sub_zero]
    rw [max_eq_right (by norm_num)]
    norm_num

/-- C8 amended: when the LLM judge call succeeds, the final bias score is
the judge's score minus `0.1` for each entry of the combined detected-bias
list — the heuristic detections (geographic, temporal, methodological) plus
the biases the judge itself reports — floored at `0.0`; the combined list is
also what the result records. -/
theorem bias_score_penalty_formula (bias_judge : List QAPair → Except String BiasEval)
    (qa_pairs : List QAPair) (b : BiasEval) (h : bias_judge qa_pairs = .ok b) :
    (evaluate_bias bias_judge qa_pairs).score =
      max 0 (b.score -
        (((detected_bias_heuristics qa_pairs).length : ℚ) +
          (b.detected_biases.length : ℚ)) * (1/10)) ∧
    (evaluate_bias bias_judge qa_pairs).detected_biases =
      detected_bias_heuristics qa_pairs ++ b.detected_biases := by
  unfold evaluate_bias
  rw [h]
  refine ⟨?_, rfl⟩
  simp [List.length_append]

/-- C8 witness: the amended formula instantiated at the counterexample's
input, evaluating to `max 0 (4/5 − (0 + 1)·(1/10)) = 7/10`. -/
theorem bias_score_penalty_formula_witness :
    (evaluate_bias bias_judge_stub [qa_abc]).score =
      max 0 (4/5 -
        (((detected_bias_heuristics [qa_abc]).length : ℚ) + (1 : ℚ)) * (1/10)) ∧
    (evaluate_bias bias_judge_stub [qa_abc]).score = 7/10 := by
  have h := bias_score_penalty_formula bias_judge_stub [qa_abc]
    ⟨4/5, "razão", ["viés apontado pelo juiz"], []⟩ rfl
  refine ⟨by simpa using h.1, ?_⟩
  rw [h.1, detected_bias_heuristics_abc]
  simp only [List.length_nil, Nat.cast_zero, List.length_singleton, Nat.cast_one]
  rw [max_eq_right (by norm_num)]
  norm_num

/-- Judge stub whose faithfulness call raises, used for the C5 refutation. -/
def ragas_judges_fail : RagasJudges :=
  { ragas_judges_const with evaluate_faithfulness := fun _ _ => .error "falha de rede" }

/-- C5 counterexample: a RAGAS judge exception yields the all-zero default
result annotated with the error — the claimed neutral score `0.5` appears
nowhere in it. -/
theorem ragas_default_not_half :
    evaluate_single_qa ragas_judges_fail "q" "a" "c" "g" =
      ragas_error_result "falha de rede" ∧
    (evaluate_single_qa ragas_judges_fail "q" "a" "c" "g").faithfulness ≠ 1/2 ∧
    (evaluate_single_qa ragas_judges_fail "q" "a" "c" "g").overall_score ≠ 1/2 := by
  have h0 : evaluate_single_qa ragas_judges_fail "q" "a" "c" "g" =
      ragas_error_result "falha de rede" := rfl
  refine ⟨h0, ?_, ?_⟩ <;> rw [h0] <;> norm_num [ragas_error_result]

/-- Judge stubs failing at each of the other three RAGAS positions, with
the earlier judges succeeding as in `ragas_judges_const`. -/
def ragas_judges_fail_relevancy : RagasJudges :=
  { ragas_judges_const with evaluate_answer_relevancy := fun _ _ => .error "falha de rede" }

def ragas_judges_fail_precision : RagasJudges :=
  { ragas_judges_const with evaluate_context_precision := fun _ _ => .error "falha de rede" }

def ragas_judges_fail_recall : RagasJudges :=
  { ragas_judges_const with evaluate_context_recall := fun _ _ _ => .error "falha de rede" }

/-- C5 amended: a judge-call exception in either engine is caught at
per-question (RAGAS) or per-dimension (GISKARD) granularity, the default
result is annotated with the error text, and the remaining items of the
batch are still evaluated (the RAGAS batch always yields one result per
case); but the neutral default score is `0.5` only for the GISKARD bias,
performance and consistency dimensions: a failure of any of the four RAGAS
judge calls yields `0.0` in all four dimension scores and the overall
score, and a caught GISKARD robustness failure (the representative RAG call
or the LLM judge raising) falls back to the heuristic stress-test
similarity mean rather than a fixed constant. -/
theorem judge_failure_defaults :
    (∀ (J : RagasJudges) (test_cases : List RagasCase),
      (evaluate_batch J test_cases).length = test_cases.length) ∧
    (∀ (J : RagasJudges) (q a c g e : String),
      J.evaluate_faithfulness a c = .error e →
      evaluate_single_qa J q a c g = ragas_error_result e) ∧
    (∀ (J : RagasJudges) (q a c g e : String) (f : FaithfulnessEval),
      J.evaluate_faithfulness a c = .ok f →
      J.evaluate_answer_relevancy q a = .error e →
      evaluate_single_qa J q a c g = ragas_error_result e) ∧
    (∀ (J : RagasJudges) (q a c g e : String) (f : FaithfulnessEval)
        (r : AnswerRelevancyEval),
      J.evaluate_faithfulness a c = .ok f →
      J.evaluate_answer_relevancy q a = .ok r →
      J.evaluate_context_precision q c = .error e →
      evaluate_single_qa J q a c g = ragas_error_result e) ∧
    (∀ (J : RagasJudges) (q a c g e : String) (f : FaithfulnessEval)
        (r : AnswerRelevancyEval) (p : ContextPrecisionEval),
      J.evaluate_faithfulness a c = .ok f →
      J.evaluate_answer_relevancy q a = .ok r →
      J.evaluate_context_precision q c = .ok p →
      J.evaluate_context_recall q c g = .error e →
      evaluate_single_qa J q a c g = ragas_error_result e) ∧
    (∀ (gens : VariantGenerators) (rag_system_func : String → Except String RagAnswer)
        (robustness_judge :
          String → String → String → String → String → Except String RobustnessEval)
        (qa : QAPair) (e : String),
      (rag_system_func (representative_variant qa.question) = .error e ∨
        ∃ vr, rag_system_func (representative_variant qa.question) = .ok vr ∧
          robustness_judge qa.question (representative_variant qa.question) qa.answer
            vr.solution qa.context = .error e) →
      evaluate_robustness gens rag_system_func robustness_judge qa =
        { score := list_mean
            ((robustness_stress_phase gens rag_system_func qa).1.map (·.2))
          reasoning := "Automated evaluation only. Error in LLM eval: " ++ e
          vulnerability_areas := (robustness_stress_phase gens rag_system_func qa).2
          stress_test_results := (robustness_stress_phase gens rag_system_func qa).1 }) ∧
    (∀ (bias_judge : List QAPair → Except String BiasEval)
        (qa_pairs : List QAPair) (e : String),
      bias_judge qa_pairs = .error e →
      evaluate_bias bias_judge qa_pairs =
        ⟨1/2, "Error in bias evaluation: " ++ e, ["Erro na avaliação de viés"], []⟩) ∧
    (∀ (performance_judge : QAPair → ℚ → Except String PerformanceEval)
        (qa_pair : QAPair) (response_time : ℚ) (e : String),
      performance_judge qa_pair response_time = .error e →
      evaluate_performance performance_judge qa_pair response_time =
        ⟨1/2, "Error in performance evaluation: " ++ e, [],
          [("response_time", response_time)]⟩) ∧
    (∀ (consistency_judge : List QAPair → Except String ConsistencyEval)
        (qa_pairs : List QAPair) (e : String),
      consistency_judge qa_pairs = .error e →
      evaluate_consistency consistency_judge qa_pairs =
        ⟨1/2, "Error in consistency evaluation: " ++ e, [],
          ["Erro na avaliação de consistência"]⟩) := by
  refine ⟨?_, ?_, ?_, ?_, ?_, ?_, ?_, ?_, ?_⟩
  · intro J test_cases
    simp [evaluate_batch]
  · intro J q a c g e h
    unfold evaluate_single_qa
    rw [h]
  · intro J q a c g e f hf hr
    unfold evaluate_single_qa
    simp only [hf, hr]
  · intro J q a c g e f r hf hr hp
    unfold evaluate_single_qa
    simp only [hf, hr, hp]
  · intro J q a c g e f r p hf hr hp hc
    unfold evaluate_single_qa
    simp only [hf, hr, hp, hc]
  · intro gens rag_system_func robustness_judge qa e h
    rcases h with h | ⟨vr, hok, herr⟩
    · exact evaluate_robustness_rag_error gens rag_system_func robustness_judge qa e h
    · exact evaluate_robustness_judge_error gens rag_system_func robustness_judge qa
        vr e hok herr
  · intro bias_judge qa_pairs e h
    unfold evaluate_bias
    rw [h]
  · intro performance_judge qa_pair response_time e h
    unfold evaluate_performance
    rw [h]
  · intro consistency_judge qa_pairs e h
    unfold evaluate_consistency
    rw [h]

/-- C5 witness: concrete failing judges for each engine and every dimension
and judge position — the four RAGAS judge slots, the robustness RAG call,
and the three remaining GISKARD judges; the robustness fallback evaluates
to its heuristic stress mean `0`. -/
theorem judge_failure_defaults_witness :
    (evaluate_batch ragas_judges_fail [⟨"q", "a", "c", "g"⟩]).length = 1 ∧
    evaluate_single_qa ragas_judges_fail "q" "a" "c" "g" =
      ragas_error_result "falha de rede" ∧
    evaluate_single_qa ragas_judges_fail_relevancy "q" "a" "c" "g" =
      ragas_error_result "falha de rede" ∧
    evaluate_single_qa ragas_judges_fail_precision "q" "a" "c" "g" =
      ragas_error_result "falha de rede" ∧
    evaluate_single_qa ragas_judges_fail_recall "q" "a" "c" "g" =
      ragas_error_result "falha de rede" ∧
    (evaluate_robustness variant_gens_none rag_system_fail robustness_judge_const
        qa_abc =
      { score := list_mean
          ((robustness_stress_phase variant_gens_none rag_system_fail qa_abc).1.map
            (·.2))
        reasoning := "Automated evaluation only. Error in LLM eval: sem resposta"
        vulnerability_areas :=
          (robustness_stress_phase variant_gens_none rag_system_fail qa_abc).2
        stress_test_results :=
          (robustness_stress_phase variant_gens_none rag_system_fail qa_abc).1 }) ∧
    (evaluate_robustness variant_gens_none rag_system_fail robustness_judge_const
        qa_abc).score = 0 ∧
    evaluate_bias (fun _ => .error "tempo esgotado") [] =
      ⟨1/2, "Error in bias evaluation: tempo esgotado",
        ["Erro na avaliação de viés"], []⟩ ∧
    evaluate_performance (fun _ _ => .error "tempo esgotado") ⟨"q", "a", "c", "g"⟩ 1000 =
      ⟨1/2, "Error in performance evaluation: tempo esgotado", [],
        [("response_time", 1000)]⟩ ∧
    evaluate_consistency (fun _ => .error "tempo esgotado") [] =
      ⟨1/2, "Error in consistency evaluation: tempo esgotado", [],
        ["Erro na avaliação de consistência"]⟩ := by
  have hrob := judge_failure_defaults.2.2.2.2.2.1 variant_gens_none rag_system_fail
    robustness_judge_const qa_abc "sem resposta" (Or.inl rfl)
  refine ⟨judge_failure_defaults.1 ragas_judges_fail [⟨"q", "a", "c", "g"⟩],
    judge_failure_defaults.2.1 ragas_judges_fail "q" "a" "c" "g" "falha de rede" rfl,
    judge_failure_defaults.2.2.1 ragas_judges_fail_relevancy
      "q" "a" "c" "g" "falha de rede" ⟨1, "fiel", []⟩ rfl rfl,
    judge_failure_defaults.2.2.2.1 ragas_judges_fail_precision
      "q" "a" "c" "g" "falha de rede" ⟨1, "fiel", []⟩ ⟨1/2, "relevante", [], []⟩
      rfl rfl rfl,
    judge_failure_defaults.2.2.2.2.1 ragas_judges_fail_recall
      "q" "a" "c" "g" "falha de rede" ⟨1, "fiel", []⟩ ⟨1/2, "relevante", [], []⟩
      ⟨1, "preciso", 1, 1⟩ rfl rfl rfl rfl,
    hrob, ?_,
    judge_failure_defaults.2.2.2.2.2.2.1 _ [] "tempo esgotado" rfl,
    judge_failure_defaults.2.2.2.2.2.2.2.1 _ ⟨"q", "a", "c", "g"⟩ 1000
      "tempo esgotado" rfl,
    judge_failure_defaults.2.2.2.2.2.2.2.2 _ [] "tempo esgotado" rfl⟩
  rw [hrob]
  exact robustness_stress_mean_fail_eval

/-! ### Fixed evaluation question catalog (`evaluation/bhc_dataset.py`) -/

inductive QuestionCategory where
  | basic_concepts
  | methodology
  | calculations
  | indices
  | applications
deriving DecidableEq, Repr

inductive DifficultyLevel where
  | basic
  | intermediate
  | advanced
deriving DecidableEq, Repr

structure BHCQuestion where
  id : Nat
  question : String
  ground_truth : String
  category : QuestionCategory
  difficulty : DifficultyLevel
  keywords : List String
  expected_concepts : List String
  evaluation_notes : String
deriving DecidableEq, Repr

def bhc_q1 : BHCQuestion :=
  { id := 1
    question := "O que é o Balanço Hídrico Climatológico (BHC) e qual é sua finalidade?"
    ground_truth := "O BHC é uma metodologia usada para quantificar a entrada e saída de água no sistema solo-planta-atmosfera. Sua finalidade é estimar a disponibilidade de água ao longo do tempo, permitindo analisar déficits e excedentes hídricos e fases de disponibilidade de água para a vegetação."
    category := .basic_concepts
    difficulty := .basic
    keywords := ["balanço hídrico", "climatológico", "BHC", "finalidade", "metodologia"]
    expected_concepts := ["sistema solo-planta-atmosfera", "entrada e saída de água",
      "disponibilidade hídrica", "déficits e excedentes", "vegetação"]
    evaluation_notes := "Resposta deve explicar conceito fundamental e aplicações práticas" }

def bhc_q2 : BHCQuestion :=
  { id := 2
    question := "Qual é a equação simplificada do BHC sem considerar irrigação e ascensão capilar?"
    ground_truth := "ΔARM = P − ET − DP. Onde ΔARM é a variação do armazenamento de água no solo, P é a precipitação, ET é a evapotranspiração e DP é a drenagem profunda."
    category := .calculations
    difficulty := .intermediate
    keywords := ["equação", "simplificada", "irrigação", "ascensão capilar", "ΔARM"]
    expected_concepts := ["variação do armazenamento", "precipitação", "evapotranspiração",
      "drenagem profunda", "componentes do balanço"]
    evaluation_notes := "Deve incluir fórmula exata e definir cada variável" }

def bhc_q3 : BHCQuestion :=
  { id := 3
    question := "O que representa a Evapotranspiração Potencial (ETP) e qual método é usado para calculá-la?"
    ground_truth := "A ETP representa a quantidade máxima de água que poderia ser transferida para a atmosfera por evaporação e transpiração, assumindo água ilimitada. É calculada pelo método de Thornthwaite (1955), considerando temperatura média mensal e fotoperíodo."
    category := .methodology
    difficulty := .intermediate
    keywords := ["evapotranspiração potencial", "ETP", "Thornthwaite", "método", "cálculo"]
    expected_concepts := ["quantidade máxima de água", "evaporação e transpiração",
      "água ilimitada", "método de Thornthwaite", "temperatura média mensal", "fotoperíodo"]
    evaluation_notes := "Deve explicar conceito de ETP e mencionar método específico" }

def bhc_q4 : BHCQuestion :=
  { id := 4
    question := "Como é determinado o Armazenamento de Água no Solo (ARM) no BHC?"
    ground_truth := "O ARM indica a quantidade de água disponível no solo, limitado pela Capacidade de Água Disponível (CAD). Ele é atualizado mensalmente conforme a diferença entre precipitação e demanda hídrica (P−ETP), variando entre 0 e CAD."
    category := .methodology
    difficulty := .intermediate
    keywords := ["armazenamento", "ARM", "solo", "CAD", "capacidade"]
    expected_concepts := ["água disponível no solo", "Capacidade de Água Disponível",
      "atualização mensal", "diferença P-ETP", "limites 0 e CAD"]
    evaluation_notes := "Deve explicar como ARM é calculado e seus limites" }

def bhc_q5 : BHCQuestion :=
  { id := 5
    question := "Qual é a diferença entre Evapotranspiração Real (ETR) e Déficit Hídrico (DEF)?"
    ground_truth := "A ETR é a quantidade de água que a vegetação realmente consome, considerando a disponibilidade no solo. O DEF ocorre quando a demanda de evapotranspiração não é atendida integralmente, mostrando o estresse hídrico da vegetação: DEF = ETP − ETR."
    category := .basic_concepts
    difficulty := .intermediate
    keywords := ["ETR", "DEF", "evapotranspiração real", "déficit hídrico", "diferença"]
    expected_concepts := ["consumo real de água", "disponibilidade no solo",
      "demanda não atendida", "estresse hídrico", "fórmula DEF = ETP - ETR"]
    evaluation_notes := "Deve contrastar ETR e DEF, incluindo a relação matemática" }

def bhc_q6 : BHCQuestion :=
  { id := 6
    question := "O que significa Excedente Hídrico (EXC) e quando ele ocorre?"
    ground_truth := "EXC representa a água que sobra quando o solo já atingiu a capacidade máxima (CAD) e ainda há precipitação. Ele indica água disponível para escoamento superficial ou recarga de aquíferos."
    category := .basic_concepts
    difficulty := .basic
    keywords := ["excedente hídrico", "EXC", "capacidade máxima", "precipitação"]
    expected_concepts := ["água que sobra", "capacidade máxima do solo",
      "precipitação excedente", "escoamento superficial", "recarga de aquíferos"]
    evaluation_notes := "Deve explicar condições para ocorrência de excedente" }

def bhc_q7 : BHCQuestion :=
  { id := 7
    question := "Quais são os índices climáticos calculados a partir do BHC e qual a função de cada um?"
    ground_truth := "Índice de Aridez (Ia): quantifica a deficiência de água em relação à demanda atmosférica. Índice Hídrico (Ih): quantifica o excedente de água em relação à demanda atmosférica. Índice de Umidade (Iu): combina Ia e Ih para classificar o tipo de clima, indicando se é úmido ou seco."
    category := .indices
    difficulty := .advanced
    keywords := ["índices climáticos", "aridez", "hídrico", "umidade", "Ia", "Ih", "Iu"]
    expected_concepts := ["Índice de Aridez (Ia)", "Índice Hídrico (Ih)",
      "Índice de Umidade (Iu)", "deficiência de água", "excedente de água",
      "demanda atmosférica", "classificação climática"]
    evaluation_notes := "Deve listar todos os três índices e suas funções específicas" }

def bhc_q8 : BHCQuestion :=
  { id := 8
    question := "Como o tipo de clima é classificado com base no Índice de Umidade (Iu)?"
    ground_truth := "O tipo de clima é determinado por faixas de Iu: Iu ≥ 100 → Superúmido (A), 80 ≤ Iu < 100 → Úmido (B4). Outros valores seguem categorias intermediárias até Árido (E)."
    category := .indices
    difficulty := .advanced
    keywords := ["classificação climática", "índice de umidade", "Iu", "faixas", "categorias"]
    expected_concepts := ["faixas de valores de Iu", "Superúmido (A)", "Úmido (B4)",
      "categorias intermediárias", "Árido (E)", "classificação de clima"]
    evaluation_notes := "Deve incluir valores numéricos das faixas e códigos de classificação" }

def bhc_q9 : BHCQuestion :=
  { id := 9
    question := "Qual é o objetivo da etapa de coleta e preparação de dados no aplicativo Climate Index?"
    ground_truth := "Transformar dados climáticos diários brutos em dados mensais confiáveis, limpos e consistentes, para que o cálculo do balanço hídrico seja preciso."
    category := .applications
    difficulty := .basic
    keywords := ["coleta", "preparação", "dados", "Climate Index", "objetivo"]
    expected_concepts := ["dados climáticos diários", "dados mensais", "confiabilidade",
      "limpeza de dados", "consistência", "precisão do cálculo"]
    evaluation_notes := "Deve enfatizar transformação de dados e qualidade" }

def bhc_q10 : BHCQuestion :=
  { id := 10
    question := "Quais dados são obrigatórios para a execução do BHC no aplicativo e quais são opcionais?"
    ground_truth := "Obrigatórios: Precipitação (P) e temperatura média (Tm). Opcionais: Umidade relativa (UR), velocidade do vento (VV) e radiação solar (RadSol). Eles podem ser usados para metodologias mais complexas, como Penman-Monteith."
    category := .applications
    difficulty := .intermediate
    keywords := ["dados obrigatórios", "opcionais", "precipitação", "temperatura", "aplicativo"]
    expected_concepts := ["Precipitação (P)", "temperatura média (Tm)",
      "Umidade relativa (UR)", "velocidade do vento (VV)", "radiação solar (RadSol)",
      "metodologias complexas", "Penman-Monteith"]
    evaluation_notes := "Deve separar claramente dados obrigatórios de opcionais" }

/-- The fixed 10-question catalog built once by `BHCDataset._create_dataset`
(bhc_dataset.py lines 33-214), in source order. -/
def bhc_questions : List BHCQuestion :=
  [bhc_q1, bhc_q2, bhc_q3, bhc_q4, bhc_q5, bhc_q6, bhc_q7, bhc_q8, bhc_q9, bhc_q10]

/-- `BHCDataset.get_questions_by_difficulty` (lines 222-223) on the module
singleton `bhc_dataset`. -/
def get_questions_by_difficulty (difficulty : DifficultyLevel) : List BHCQuestion :=
  bhc_questions.filter (fun q => q.difficulty == difficulty)

/-- `BHCDataset.get_evaluation_subset` (lines 246-252): first two basic,
first two intermediate, first one advanced, truncated to the requested
count. -/
def get_evaluation_subset (max_questions : Nat) : List BHCQuestion :=
  let basic_questions := (get_questions_by_difficulty .basic).take 2
  let intermediate_questions := (get_questions_by_difficulty .intermediate).take 2
  let advanced_questions := (get_questions_by_difficulty .advanced).take 1
  (basic_questions ++ intermediate_questions ++ advanced_questions).take max_questions

/-- C9: on the fixed catalog, `get_evaluation_subset 5` is exactly the first
two basic (ids 1 and 6), then the first two intermediate (ids 2 and 3), then
the first advanced (id 7) questions in catalog order; `get_evaluation_subset
1` is exactly the first basic-difficulty question of the catalog; and every
requested count returns that five-element sequence truncated to its first
`n` elements. -/
theorem evaluation_subset_selection :
    get_evaluation_subset 5 = [bhc_q1, bhc_q6, bhc_q2, bhc_q3, bhc_q7] ∧
    (get_evaluation_subset 5).map (·.id) = [1, 6, 2, 3, 7] ∧
    (get_evaluation_subset 5).map (·.difficulty) =
      [.basic, .basic, .intermediate, .intermediate, .advanced] ∧
    (get_questions_by_difficulty .basic).take 2 = [bhc_q1, bhc_q6] ∧
    (get_questions_by_difficulty .intermediate).take 2 = [bhc_q2, bhc_q3] ∧
    (get_questions_by_difficulty .advanced).take 1 = [bhc_q7] ∧
    get_evaluation_subset 1 = [bhc_q1] ∧
    (get_questions_by_difficulty .basic).head? = some bhc_q1 ∧
    ∀ n : Nat, get_evaluation_subset n = (get_evaluation_subset 5).take n := by
  have hfull : ∀ n : Nat,
      get_evaluation_subset n = [bhc_q1, bhc_q6, bhc_q2, bhc_q3, bhc_q7].take n := by
    intro n
    rfl
  refine ⟨rfl, rfl, rfl, rfl, rfl, rfl, rfl, rfl, ?_⟩
  intro n
  rw [hfull n, hfull 5]
  simp [List.take_take]
